import Mathlib

/-!
Verification development for the tinygo-servo `DefaultHandler` (PWM servo
driver for rp2040/rp2350 targets).

Shallow embedding notes:
* Go `uint16` values are modelled as `Nat` together with explicit mod-2^16
  arithmetic (`u16sub`, `u16add`); Go `int16` values are modelled as `Int`
  with explicit wrap-around (`int16wrap`, `toInt16`, `uint16OfInt`).
* The PWM collaborator is modelled by its observable behaviour: whether
  `Configure` succeeds (`pwmConfigureOk`) and what `Channel` returns
  (`pwmChannel : Option Nat`).  The optional logger, post-update callback and
  movement predicate are modelled by booleans (`hasLogger`,
  `hasAfterSetAngleFunc`, `movementEnabled`); their invocations are recorded
  as effect fields of the operation results.
* The source computes `period := 1e9 / float64(frequency)` and truncates to
  `uint32`; this is modelled as exact natural division `1000000000 / frequency`.
  No theorem below depends on the exact period value, only on the fact that
  the stored period is the same number the pulse-width validations compare
  against.
* The duty pulse is computed in the source with float64 intermediates; it is
  modelled with exact natural arithmetic in `pulseOf`.  No theorem below
  depends on the value of the pulse, only on whether a duty write happens.
-/

/-- Modulus of Go `uint16` subtraction: both operands are reduced mod 2^16
and the result wraps, exactly as `a - b` on Go `uint16`. -/
def u16sub (a b : Nat) : Nat :=
  (a % 65536 + 65536 - b % 65536) % 65536

/-- Go `uint16` addition with wrap-around. -/
def u16add (a b : Nat) : Nat :=
  (a % 65536 + b % 65536) % 65536

/-- Go `int16(x)` conversion of a `uint16` value: reinterpret the low 16 bits
as a signed value. -/
def toInt16 (n : Nat) : Int :=
  if n % 65536 < 32768 then ((n % 65536 : Nat) : Int)
  else ((n % 65536 : Nat) : Int) - 65536

/-- Wrap an integer into the `int16` range, as Go `int16` overflow does. -/
def int16wrap (i : Int) : Int :=
  (i + 32768).emod 65536 - 32768

/-- Go `uint16(x)` conversion of an `int16` value: take the low 16 bits. -/
def uint16OfInt (i : Int) : Nat :=
  (i.emod 65536).toNat

/-- Error codes of errors.go (`tinygoerrors.ErrorCodeNil` plus the servo
error block starting at 5230).  Only the codes reachable from the embedded
operations are listed. -/
inductive ErrorCode where
  | ErrorCodeNil
  | ErrorCodeServoZeroFrequency
  | ErrorCodeServoFailedToConfigurePWM
  | ErrorCodeServoFailedToGetPWMChannel
  | ErrorCodeServoInvalidMinPulseWidth
  | ErrorCodeServoInvalidMaxPulseWidth
  | ErrorCodeServoInvalidActuationRange
  | ErrorCodeServoInvalidCenterAngle
  | ErrorCodeServoAngleOutOfRange
  deriving DecidableEq, Repr

/-- The `DefaultHandler` struct of the source.  Function-typed fields
(`afterSetAngleFunc`, `isMovementEnabled`, `logger`) are modelled by their
observable behaviour: presence of the callback/logger and the value the
movement predicate returns (an absent predicate behaves as `true`). -/
structure DefaultHandler where
  hasAfterSetAngleFunc : Bool
  movementEnabled : Bool
  isDirectionInverted : Bool
  frequency : Nat
  minPulseWidth : Nat
  maxPulseWidth : Nat
  centerAngle : Nat
  actuationRange : Nat
  leftLimitAngle : Nat
  rightLimitAngle : Nat
  angle : Nat
  hasLogger : Bool
  channel : Nat
  period : Nat
  deriving DecidableEq, Repr

/-- Result of an angle-set operation: the new handler state, the returned
error code, and the observable side effects (a duty write with its pulse, an
angle log message, a callback invocation). -/
structure SetAngleResult where
  h : DefaultHandler
  err : ErrorCode
  dutyWritten : Option Nat
  angleLogged : Option Nat
  callbackCalled : Option Nat
  deriving DecidableEq, Repr

/-- Duty pulse of SetAngle:
`minPulseWidth + (maxPulseWidth-minPulseWidth) * angle / actuationRange`,
with the float64 intermediates of the source abstracted to exact natural
arithmetic, truncated to `uint32`.  The `maxPulseWidth - minPulseWidth`
subtraction is `uint32` subtraction in the source; handlers with
`maxPulseWidth < minPulseWidth` would wrap there, but no theorem below
depends on the pulse value. -/
def pulseOf (h : DefaultHandler) (angle : Nat) : Nat :=
  (h.minPulseWidth +
    ((h.maxPulseWidth + 4294967296 - h.minPulseWidth) % 4294967296) * angle
      / h.actuationRange) % 4294967296

/-- The direction-inversion remap at the top of SetAngle:
`if h.isDirectionInverted \x7b angle = h.actuationRange - angle \x7d`. -/
def remapAngle (h : DefaultHandler) (angle : Nat) : Nat :=
  if h.isDirectionInverted then u16sub h.actuationRange angle else angle

/-- `DefaultHandler.SetAngle` of the source, with its side effects made
explicit.  The range check is the literal uint16 comparison of the source:
reject when `angle < centerAngle - leftLimitAngle` or
`angle > centerAngle + rightLimitAngle`. -/
def DefaultHandler.SetAngle (h : DefaultHandler) (angle : Nat) : SetAngleResult :=
  if remapAngle h angle < u16sub h.centerAngle h.leftLimitAngle
      ∨ u16add h.centerAngle h.rightLimitAngle < remapAngle h angle then
    { h := h, err := .ErrorCodeServoAngleOutOfRange,
      dutyWritten := none, angleLogged := none, callbackCalled := none }
  else if remapAngle h angle = h.angle then
    { h := h, err := .ErrorCodeNil,
      dutyWritten := none, angleLogged := none, callbackCalled := none }
  else
    { h := { h with angle := remapAngle h angle },
      err := .ErrorCodeNil,
      dutyWritten := if h.movementEnabled then some (pulseOf h (remapAngle h angle)) else none,
      angleLogged := if h.hasLogger then some (remapAngle h angle) else none,
      callbackCalled := if h.hasAfterSetAngleFunc then some (remapAngle h angle) else none }

/-- `DefaultHandler.GetAngle` of the source. -/
def DefaultHandler.GetAngle (h : DefaultHandler) : Nat :=
  h.angle

/-- `DefaultHandler.IsAngleCentered` of the source. -/
def DefaultHandler.IsAngleCentered (h : DefaultHandler) : Bool :=
  h.angle == h.centerAngle

/-- `DefaultHandler.SetAngleToCenter` of the source. -/
def DefaultHandler.SetAngleToCenter (h : DefaultHandler) : SetAngleResult :=
  h.SetAngle h.centerAngle

/-- `DefaultHandler.SetAngleRelativeToCenter` of the source.  The relative
angle is a Go `int16`; `int16(h.centerAngle) + relativeAngle` wraps in
`int16`, and the limits are converted with `int16(...)` before comparison. -/
def DefaultHandler.SetAngleRelativeToCenter (h : DefaultHandler) (relativeAngle : Int) : SetAngleResult :=
  if int16wrap (toInt16 h.centerAngle + relativeAngle) < toInt16 h.leftLimitAngle
      ∨ toInt16 h.rightLimitAngle < int16wrap (toInt16 h.centerAngle + relativeAngle) then
    { h := h, err := .ErrorCodeServoAngleOutOfRange,
      dutyWritten := none, angleLogged := none, callbackCalled := none }
  else
    h.SetAngle (uint16OfInt (int16wrap (toInt16 h.centerAngle + relativeAngle)))

/-- `DefaultHandler.SetAngleToRight` of the source.  The `angle < 0` clamp of
the source is dead code on `uint16` and is omitted; the upper clamp uses the
uint16 subtraction `rightLimitAngle - centerAngle`. -/
def DefaultHandler.SetAngleToRight (h : DefaultHandler) (angle : Nat) : SetAngleResult :=
  h.SetAngleRelativeToCenter
    (toInt16 (if u16sub h.rightLimitAngle h.centerAngle < angle % 65536
              then u16sub h.rightLimitAngle h.centerAngle
              else angle % 65536))

/-- `DefaultHandler.SetAngleToLeft` of the source.  The `angle < 0` clamp of
the source is dead code on `uint16` and is omitted; the upper clamp uses the
uint16 subtraction `centerAngle - leftLimitAngle`, and the delegated relative
angle is the `int16` negation `-int16(angle)`. -/
def DefaultHandler.SetAngleToLeft (h : DefaultHandler) (angle : Nat) : SetAngleResult :=
  h.SetAngleRelativeToCenter
    (int16wrap (- toInt16 (if u16sub h.centerAngle h.leftLimitAngle < angle % 65536
                           then u16sub h.centerAngle h.leftLimitAngle
                           else angle % 65536)))

/-- Result of `NewDefaultHandler`: the optional handler, the error code, and
the observable construction effects (whether `pwm.Configure` was called,
whether the period was logged, and the duty write / angle log / callback of
the construction-time self-command to center). -/
structure NewResult where
  handler : Option DefaultHandler
  err : ErrorCode
  configureCalled : Bool
  periodLogged : Bool
  dutyWritten : Option Nat
  angleLogged : Option Nat
  callbackCalled : Option Nat
  deriving DecidableEq, Repr

/-- The handler literal built by `NewDefaultHandler` just before the
construction-time `SetAngleToCenter` self-command: `angle` starts at
`centerAngle`, `leftLimitAngle = centerAngle - maxLeftAngle` in uint16
arithmetic (the source's `if leftLimitAngle < 0` clamp is dead code on an
unsigned type and never fires), and `rightLimitAngle` is
`centerAngle + maxRightAngle` clamped down to `actuationRange`. -/
def mkCenteredHandler (channel : Nat) (hasCallback movementEnabled : Bool)
    (frequency minPulseWidth maxPulseWidth actuationRange centerAngle maxLeftAngle maxRightAngle : Nat)
    (isDirectionInverted hasLogger : Bool) : DefaultHandler :=
  { hasAfterSetAngleFunc := hasCallback
    movementEnabled := movementEnabled
    isDirectionInverted := isDirectionInverted
    frequency := frequency
    minPulseWidth := minPulseWidth
    maxPulseWidth := maxPulseWidth
    centerAngle := centerAngle
    actuationRange := actuationRange
    leftLimitAngle := u16sub centerAngle maxLeftAngle
    rightLimitAngle :=
      if actuationRange < u16add centerAngle maxRightAngle then actuationRange
      else u16add centerAngle maxRightAngle
    angle := centerAngle
    hasLogger := hasLogger
    channel := channel
    period := 1000000000 / frequency }

/-- `NewDefaultHandler` of the source.  Validation order is literal:
zero frequency, PWM configure, channel resolution, min pulse width, max pulse
width, actuation range, center angle (the `centerAngle < 0` half of the
source check is dead code on `uint16`).  On success the handler starts at
`angle = centerAngle` and is immediately self-commanded to center, whose
result (error ignored) and effects are recorded. -/
def NewDefaultHandler (pwmConfigureOk : Bool) (pwmChannel : Option Nat)
    (hasCallback movementEnabled : Bool)
    (frequency minPulseWidth maxPulseWidth actuationRange centerAngle maxLeftAngle maxRightAngle : Nat)
    (isDirectionInverted hasLogger : Bool) : NewResult :=
  if frequency = 0 then
    { handler := none, err := .ErrorCodeServoZeroFrequency, configureCalled := false,
      periodLogged := false, dutyWritten := none, angleLogged := none, callbackCalled := none }
  else if pwmConfigureOk = false then
    { handler := none, err := .ErrorCodeServoFailedToConfigurePWM, configureCalled := true,
      periodLogged := false, dutyWritten := none, angleLogged := none, callbackCalled := none }
  else
    match pwmChannel with
    | none =>
      { handler := none, err := .ErrorCodeServoFailedToGetPWMChannel, configureCalled := true,
        periodLogged := hasLogger, dutyWritten := none, angleLogged := none, callbackCalled := none }
    | some channel =>
      if minPulseWidth = 0 ∨ 1000000000 / frequency ≤ minPulseWidth then
        { handler := none, err := .ErrorCodeServoInvalidMinPulseWidth, configureCalled := true,
          periodLogged := hasLogger, dutyWritten := none, angleLogged := none, callbackCalled := none }
      else if maxPulseWidth = 0 ∨ 1000000000 / frequency ≤ maxPulseWidth then
        { handler := none, err := .ErrorCodeServoInvalidMaxPulseWidth, configureCalled := true,
          periodLogged := hasLogger, dutyWritten := none, angleLogged := none, callbackCalled := none }
      else if actuationRange = 0 ∨ 360 < actuationRange then
        { handler := none, err := .ErrorCodeServoInvalidActuationRange, configureCalled := true,
          periodLogged := hasLogger, dutyWritten := none, angleLogged := none, callbackCalled := none }
      else if actuationRange < centerAngle then
        { handler := none, err := .ErrorCodeServoInvalidCenterAngle, configureCalled := true,
          periodLogged := hasLogger, dutyWritten := none, angleLogged := none, callbackCalled := none }
      else
        { handler := some ((mkCenteredHandler channel hasCallback movementEnabled frequency
            minPulseWidth maxPulseWidth actuationRange centerAngle maxLeftAngle maxRightAngle
            isDirectionInverted hasLogger).SetAngleToCenter).h
          err := .ErrorCodeNil
          configureCalled := true
          periodLogged := hasLogger
          dutyWritten := ((mkCenteredHandler channel hasCallback movementEnabled frequency
            minPulseWidth maxPulseWidth actuationRange centerAngle maxLeftAngle maxRightAngle
            isDirectionInverted hasLogger).SetAngleToCenter).dutyWritten
          angleLogged := ((mkCenteredHandler channel hasCallback movementEnabled frequency
            minPulseWidth maxPulseWidth actuationRange centerAngle maxLeftAngle maxRightAngle
            isDirectionInverted hasLogger).SetAngleToCenter).angleLogged
          callbackCalled := ((mkCenteredHandler channel hasCallback movementEnabled frequency
            minPulseWidth maxPulseWidth actuationRange centerAngle maxLeftAngle maxRightAngle
            isDirectionInverted hasLogger).SetAngleToCenter).callbackCalled }

/-- Handler produced by
`NewDefaultHandler(freq=50, min=1000, max=2000, actuationRange=180,
centerAngle=90, maxLeftAngle=30, maxRightAngle=30, not inverted)`:
the derived limits are `[60, 120]`. -/
def hC1 : DefaultHandler :=
  { hasAfterSetAngleFunc := false, movementEnabled := true, isDirectionInverted := false,
    frequency := 50, minPulseWidth := 1000, maxPulseWidth := 2000, centerAngle := 90,
    actuationRange := 180, leftLimitAngle := 60, rightLimitAngle := 120, angle := 90,
    hasLogger := false, channel := 0, period := 20000000 }

/-- Handler produced by construction with `maxLeftAngle = 91 > centerAngle = 90`:
the uint16 subtraction wraps and `leftLimitAngle` becomes 65535. -/
def hC2 : DefaultHandler :=
  { hasAfterSetAngleFunc := false, movementEnabled := true, isDirectionInverted := false,
    frequency := 50, minPulseWidth := 1000, maxPulseWidth := 2000, centerAngle := 90,
    actuationRange := 180, leftLimitAngle := 65535, rightLimitAngle := 90, angle := 90,
    hasLogger := false, channel := 0, period := 20000000 }

/-- Handler of the spec's example scenario:
`actuationRange=180, centerAngle=90, maxLeftAngle=90, maxRightAngle=90`,
giving `leftLimitAngle=0, rightLimitAngle=180`. -/
def hC3h : DefaultHandler :=
  { hasAfterSetAngleFunc := false, movementEnabled := true, isDirectionInverted := false,
    frequency := 50, minPulseWidth := 1000, maxPulseWidth := 2000, centerAngle := 90,
    actuationRange := 180, leftLimitAngle := 0, rightLimitAngle := 180, angle := 90,
    hasLogger := false, channel := 0, period := 20000000 }

/-- Handler successfully constructed with `minPulseWidth = 2000 > maxPulseWidth = 1000`. -/
def hC4x : DefaultHandler :=
  { hasAfterSetAngleFunc := false, movementEnabled := true, isDirectionInverted := false,
    frequency := 50, minPulseWidth := 2000, maxPulseWidth := 1000, centerAngle := 90,
    actuationRange := 180, leftLimitAngle := 0, rightLimitAngle := 180, angle := 90,
    hasLogger := false, channel := 0, period := 20000000 }

/-- Concrete handler used to witness the amended C4 bounds. -/
def hC4w : DefaultHandler :=
  { hasAfterSetAngleFunc := false, movementEnabled := true, isDirectionInverted := false,
    frequency := 50, minPulseWidth := 1000, maxPulseWidth := 2000, centerAngle := 90,
    actuationRange := 180, leftLimitAngle := 60, rightLimitAngle := 120, angle := 90,
    hasLogger := false, channel := 0, period := 20000000 }

/-- Concrete handler used to witness C5 (its SetAngle rejects 60, since
`60 < centerAngle - leftLimitAngle = 90`). -/
def hC5h : DefaultHandler :=
  { hasAfterSetAngleFunc := false, movementEnabled := true, isDirectionInverted := false,
    frequency := 50, minPulseWidth := 1000, maxPulseWidth := 2000, centerAngle := 90,
    actuationRange := 180, leftLimitAngle := 0, rightLimitAngle := 180, angle := 90,
    hasLogger := false, channel := 0, period := 20000000 }

/-- Handler with wrapped `leftLimitAngle = 65535` refuting C6 as stated. -/
def hC6x : DefaultHandler :=
  { hasAfterSetAngleFunc := false, movementEnabled := true, isDirectionInverted := false,
    frequency := 50, minPulseWidth := 1000, maxPulseWidth := 2000, centerAngle := 90,
    actuationRange := 180, leftLimitAngle := 65535, rightLimitAngle := 90, angle := 90,
    hasLogger := false, channel := 0, period := 20000000 }

/-- Concrete handler used to witness the amended C6 no-op. -/
def hC6w : DefaultHandler :=
  { hasAfterSetAngleFunc := false, movementEnabled := true, isDirectionInverted := false,
    frequency := 50, minPulseWidth := 1000, maxPulseWidth := 2000, centerAngle := 90,
    actuationRange := 180, leftLimitAngle := 60, rightLimitAngle := 120, angle := 90,
    hasLogger := false, channel := 0, period := 20000000 }

/-- Direction-inverted handler (actuationRange 180, center 90, limits 0/180)
used to witness C7. -/
def hC7h : DefaultHandler :=
  { hasAfterSetAngleFunc := false, movementEnabled := true, isDirectionInverted := true,
    frequency := 50, minPulseWidth := 1000, maxPulseWidth := 2000, centerAngle := 90,
    actuationRange := 180, leftLimitAngle := 0, rightLimitAngle := 180, angle := 90,
    hasLogger := false, channel := 0, period := 20000000 }

/-- Direction-inverted handler constructed with `centerAngle = 60`: the
construction-time self-command remaps the center to `180 - 60 = 120` and
leaves the handler off-center. -/
def hC8x : DefaultHandler :=
  { hasAfterSetAngleFunc := false, movementEnabled := true, isDirectionInverted := true,
    frequency := 50, minPulseWidth := 1000, maxPulseWidth := 2000, centerAngle := 60,
    actuationRange := 180, leftLimitAngle := 0, rightLimitAngle := 120, angle := 120,
    hasLogger := false, channel := 0, period := 20000000 }

/-- Concrete non-inverted handler used to witness the amended C8. -/
def hC8w : DefaultHandler :=
  { hasAfterSetAngleFunc := false, movementEnabled := true, isDirectionInverted := false,
    frequency := 50, minPulseWidth := 1000, maxPulseWidth := 2000, centerAngle := 90,
    actuationRange := 180, leftLimitAngle := 60, rightLimitAngle := 120, angle := 90,
    hasLogger := false, channel := 0, period := 20000000 }

/-- Concrete handler used to witness C10. -/
def hC10h : DefaultHandler :=
  { hasAfterSetAngleFunc := false, movementEnabled := true, isDirectionInverted := false,
    frequency := 50, minPulseWidth := 1000, maxPulseWidth := 2000, centerAngle := 90,
    actuationRange := 180, leftLimitAngle := 60, rightLimitAngle := 120, angle := 90,
    hasLogger := false, channel := 0, period := 20000000 }

theorem u16sub_of_le (a b : Nat) (ha : a < 65536) (hb : b ≤ a) : u16sub a b = a - b := by
  unfold u16sub
  omega

theorem u16add_of_lt (a b : Nat) (h : a + b < 65536) : u16add a b = a + b := by
  unfold u16add
  omega

/-- SetAngle only mutates the `angle` field: all calibration parameters of
the handler are preserved. -/
theorem setAngle_preserves (h : DefaultHandler) (x : Nat) :
    ((h.SetAngle x).h).minPulseWidth = h.minPulseWidth ∧
    ((h.SetAngle x).h).maxPulseWidth = h.maxPulseWidth ∧
    ((h.SetAngle x).h).period = h.period ∧
    ((h.SetAngle x).h).centerAngle = h.centerAngle ∧
    ((h.SetAngle x).h).actuationRange = h.actuationRange := by
  unfold DefaultHandler.SetAngle
  by_cases h1 : remapAngle h x < u16sub h.centerAngle h.leftLimitAngle
      ∨ u16add h.centerAngle h.rightLimitAngle < remapAngle h x
  · rw [if_pos h1]
    exact ⟨rfl, rfl, rfl, rfl, rfl⟩
  · rw [if_neg h1]
    by_cases h2 : remapAngle h x = h.angle
    · rw [if_pos h2]
      exact ⟨rfl, rfl, rfl, rfl, rfl⟩
    · rw [if_neg h2]
      exact ⟨rfl, rfl, rfl, rfl, rfl⟩

/-- On a non-inverted handler whose stored angle already is the center, the
self-command to center leaves the state unchanged and produces no effect,
whether the range check passes (no-op branch) or rejects. -/
theorem selfCenter_noop (h : DefaultHandler) (hinv : h.isDirectionInverted = false)
    (hang : h.angle = h.centerAngle) :
    (h.SetAngleToCenter).h = h ∧ (h.SetAngleToCenter).dutyWritten = none ∧
    (h.SetAngleToCenter).angleLogged = none ∧ (h.SetAngleToCenter).callbackCalled = none := by
  have hr : remapAngle h h.centerAngle = h.centerAngle := by simp [remapAngle, hinv]
  unfold DefaultHandler.SetAngleToCenter DefaultHandler.SetAngle
  by_cases h1 : remapAngle h h.centerAngle < u16sub h.centerAngle h.leftLimitAngle
      ∨ u16add h.centerAngle h.rightLimitAngle < remapAngle h h.centerAngle
  · rw [if_pos h1]
    exact ⟨rfl, rfl, rfl, rfl⟩
  · have h2 : remapAngle h h.centerAngle = h.angle := by rw [hr, hang]
    rw [if_neg h1, if_pos h2]
    exact ⟨rfl, rfl, rfl, rfl⟩

/-- Characterization of successful construction: every validation passed and
the result is the centered handler literal after the self-command, with the
self-command's effects recorded. -/
theorem newDefaultHandler_some (pwmOk : Bool) (pc : Option Nat) (cb mv : Bool)
    (f minP maxP aR cA mL mR : Nat) (inv lg : Bool) (h : DefaultHandler)
    (hsome : (NewDefaultHandler pwmOk pc cb mv f minP maxP aR cA mL mR inv lg).handler = some h) :
    ∃ ch, pc = some ch ∧ f ≠ 0 ∧ 0 < minP ∧ minP < 1000000000 / f ∧
      0 < maxP ∧ maxP < 1000000000 / f ∧ 0 < aR ∧ aR ≤ 360 ∧ cA ≤ aR ∧
      h = ((mkCenteredHandler ch cb mv f minP maxP aR cA mL mR inv lg).SetAngleToCenter).h ∧
      NewDefaultHandler pwmOk pc cb mv f minP maxP aR cA mL mR inv lg =
        { handler := some h, err := .ErrorCodeNil, configureCalled := true, periodLogged := lg,
          dutyWritten := ((mkCenteredHandler ch cb mv f minP maxP aR cA mL mR inv lg).SetAngleToCenter).dutyWritten,
          angleLogged := ((mkCenteredHandler ch cb mv f minP maxP aR cA mL mR inv lg).SetAngleToCenter).angleLogged,
          callbackCalled := ((mkCenteredHandler ch cb mv f minP maxP aR cA mL mR inv lg).SetAngleToCenter).callbackCalled } := by
  unfold NewDefaultHandler at hsome
  by_cases h1 : f = 0
  · simp [h1] at hsome
  · by_cases h2 : pwmOk = false
    · simp [h1, h2] at hsome
    · cases pc with
      | none => simp [h1, h2] at hsome
      | some ch =>
        by_cases h3 : minP = 0 ∨ 1000000000 / f ≤ minP
        · simp [h1, h2, h3] at hsome
        · by_cases h4 : maxP = 0 ∨ 1000000000 / f ≤ maxP
          · simp [h1, h2, h3, h4] at hsome
          · by_cases h5 : aR = 0 ∨ 360 < aR
            · simp [h1, h2, h3, h4, h5] at hsome
            · by_cases h6 : aR < cA
              · simp [h1, h2, h3, h4, h5, h6] at hsome
              · simp [h1, h2, h3, h4, h5, h6] at hsome
                subst hsome
                refine ⟨ch, rfl, h1, by omega, by omega, by omega, by omega, by omega, by omega,
                  by omega, rfl, ?_⟩
                unfold NewDefaultHandler
                simp [h1, h2, h3, h4, h5, h6]

/-- C1: the claim states SetAngle accepts exactly the remapped targets inside
`[leftLimitAngle, rightLimitAngle]`.  The code instead checks
`[centerAngle - leftLimitAngle, centerAngle + rightLimitAngle]`: on the
handler constructed with limits `[60, 120]`, `SetAngle(40)` is accepted and
stored even though `40 < leftLimitAngle = 60`, so the claim fails on the
code (the spec itself flags the intent as authoritative over this
arithmetic). -/
theorem servoC1_rangeCheck_divergence :
    (NewDefaultHandler true (some 0) false true 50 1000 2000 180 90 30 30 false false).handler = some hC1 ∧
    hC1.leftLimitAngle = 60 ∧ hC1.rightLimitAngle = 120 ∧ hC1.GetAngle = 90 ∧
    (hC1.SetAngle 40).err = ErrorCode.ErrorCodeNil ∧
    ((hC1.SetAngle 40).h).GetAngle = 40 ∧
    40 < hC1.leftLimitAngle := by decide

/-- C2: the claim states every successful construction satisfies
`0 ≤ leftLimitAngle ≤ centerAngle`, including when `maxLeftAngle` exceeds
`centerAngle`.  With `centerAngle = 90, maxLeftAngle = 91` the uint16
subtraction wraps to `leftLimitAngle = 65535` (the source's
`if leftLimitAngle < 0` clamp is dead code on an unsigned type), construction
still succeeds, and `leftLimitAngle ≤ centerAngle` is violated. -/
theorem servoC2_limitInvariant_violated :
    (NewDefaultHandler true (some 0) false true 50 1000 2000 180 90 91 0 false false).err = ErrorCode.ErrorCodeNil ∧
    (NewDefaultHandler true (some 0) false true 50 1000 2000 180 90 91 0 false false).handler = some hC2 ∧
    hC2.leftLimitAngle = 65535 ∧ hC2.centerAngle = 90 ∧
    ¬(hC2.leftLimitAngle ≤ hC2.centerAngle) := by decide

/-- C3: on the spec's example handler (`actuationRange=180, centerAngle=90,
maxLeftAngle=90, maxRightAngle=90`, limits `[0, 180]`), `SetAngleToLeft(30)`
is claimed to store 60; the code instead rejects the delegated
`SetAngle(60)` because `60 < centerAngle - leftLimitAngle = 90`, returning
AngleOutOfRange and leaving the angle at 90.  The subsequent
`SetAngleToRight(30)` does land at 120 as claimed. -/
theorem servoC3_scenario_divergence :
    (NewDefaultHandler true (some 0) false true 50 1000 2000 180 90 90 90 false false).handler = some hC3h ∧
    hC3h.leftLimitAngle = 0 ∧ hC3h.rightLimitAngle = 180 ∧
    (hC3h.SetAngleToLeft 30).err = ErrorCode.ErrorCodeServoAngleOutOfRange ∧
    ((hC3h.SetAngleToLeft 30).h).GetAngle = 90 ∧
    (((hC3h.SetAngleToLeft 30).h).SetAngleToRight 30).err = ErrorCode.ErrorCodeNil ∧
    ((((hC3h.SetAngleToLeft 30).h).SetAngleToRight 30).h).GetAngle = 120 := by decide

/-- C4 counterexample: a construction with
`minPulseWidth = 2000 > maxPulseWidth = 1000` succeeds (the code never
compares the two bounds to each other), refuting the claim that no handler
is ever constructed with `maxPulseWidth ≤ minPulseWidth`. -/
theorem servoC4_counterexample :
    (NewDefaultHandler true (some 0) false true 50 2000 1000 180 90 90 90 false false).err = ErrorCode.ErrorCodeNil ∧
    (NewDefaultHandler true (some 0) false true 50 2000 1000 180 90 90 90 false false).handler = some hC4x ∧
    hC4x.maxPulseWidth < hC4x.minPulseWidth := by decide

/-- C4 amended: every successful construction yields a handler whose
`minPulseWidth` and `maxPulseWidth` are each nonzero and strictly below the
stored `period`; the code performs no comparison between the two pulse
widths. -/
theorem servoC4_pulseWidth_bounds (pwmOk : Bool) (pc : Option Nat) (cb mv : Bool)
    (f minP maxP aR cA mL mR : Nat) (inv lg : Bool) (h : DefaultHandler)
    (hsome : (NewDefaultHandler pwmOk pc cb mv f minP maxP aR cA mL mR inv lg).handler = some h) :
    0 < h.minPulseWidth ∧ h.minPulseWidth < h.period ∧
    0 < h.maxPulseWidth ∧ h.maxPulseWidth < h.period := by
  obtain ⟨ch, _, _, hmin0, hminp, hmax0, hmaxp, _, _, _, hh, _⟩ :=
    newDefaultHandler_some pwmOk pc cb mv f minP maxP aR cA mL mR inv lg h hsome
  subst hh
  obtain ⟨e1, e2, e3, _, _⟩ :=
    setAngle_preserves (mkCenteredHandler ch cb mv f minP maxP aR cA mL mR inv lg)
      ((mkCenteredHandler ch cb mv f minP maxP aR cA mL mR inv lg).centerAngle)
  unfold DefaultHandler.SetAngleToCenter
  rw [e1, e2, e3]
  simp only [mkCenteredHandler]
  exact ⟨hmin0, hminp, hmax0, hmaxp⟩

/-- Witness for the amended C4 at a concrete successful construction. -/
theorem servoC4_pulseWidth_bounds_witness :
    (NewDefaultHandler true (some 0) false true 50 1000 2000 180 90 30 30 false false).handler = some hC4w ∧
    (0 < hC4w.minPulseWidth ∧ hC4w.minPulseWidth < hC4w.period ∧
     0 < hC4w.maxPulseWidth ∧ hC4w.maxPulseWidth < hC4w.period) :=
  ⟨by decide,
   servoC4_pulseWidth_bounds true (some 0) false true 50 1000 2000 180 90 30 30 false false hC4w
     (by decide)⟩

/-- C5: whenever SetAngle returns AngleOutOfRange, the handler state is
unchanged and no side effect takes place: no duty write, no angle log, no
callback invocation. -/
theorem servoC5_reject_no_effects (h : DefaultHandler) (x : Nat)
    (herr : (h.SetAngle x).err = ErrorCode.ErrorCodeServoAngleOutOfRange) :
    h.SetAngle x = { h := h, err := ErrorCode.ErrorCodeServoAngleOutOfRange,
                     dutyWritten := none, angleLogged := none, callbackCalled := none } := by
  unfold DefaultHandler.SetAngle at herr ⊢
  by_cases h1 : remapAngle h x < u16sub h.centerAngle h.leftLimitAngle
      ∨ u16add h.centerAngle h.rightLimitAngle < remapAngle h x
  · rw [if_pos h1]
  · rw [if_neg h1] at herr ⊢
    by_cases h2 : remapAngle h x = h.angle
    · rw [if_pos h2] at herr
      exact absurd herr (by simp)
    · rw [if_neg h2] at herr
      exact absurd herr (by simp)

/-- Witness for C5 at a concrete rejected call. -/
theorem servoC5_reject_no_effects_witness :
    (hC5h.SetAngle 60).err = ErrorCode.ErrorCodeServoAngleOutOfRange ∧
    hC5h.SetAngle 60 = { h := hC5h, err := ErrorCode.ErrorCodeServoAngleOutOfRange,
                         dutyWritten := none, angleLogged := none, callbackCalled := none } :=
  ⟨by decide, servoC5_reject_no_effects hC5h 60 (by decide)⟩

/-- C9: constructing with frequency 0 fails with ErrorCodeServoZeroFrequency
as the very first check, before the PWM peripheral is configured, and
returns no handler, for every collaborator behaviour and every other
argument. -/
theorem servoC9_zero_frequency (pwmOk : Bool) (pc : Option Nat) (cb mv : Bool)
    (minP maxP aR cA mL mR : Nat) (inv lg : Bool) :
    NewDefaultHandler pwmOk pc cb mv 0 minP maxP aR cA mL mR inv lg =
      { handler := none, err := ErrorCode.ErrorCodeServoZeroFrequency, configureCalled := false,
        periodLogged := false, dutyWritten := none, angleLogged := none, callbackCalled := none } := rfl

/-- C6 counterexample: the claim fails as stated.  On the successfully
constructed handler with wrapped `leftLimitAngle = 65535`, the target 90
equals the current stored angle (no inversion, so the remapped value is 90),
yet SetAngle returns AngleOutOfRange instead of the nil code, because the
range check runs before the equality check and
`centerAngle - leftLimitAngle` wraps to 91. -/
theorem servoC6_counterexample :
    (NewDefaultHandler true (some 0) false true 50 1000 2000 180 90 91 0 false false).handler = some hC6x ∧
    hC6x.angle = 90 ∧ remapAngle hC6x 90 = hC6x.angle ∧
    (hC6x.SetAngle 90).err = ErrorCode.ErrorCodeServoAngleOutOfRange := by decide

/-- C6 amended: when the remapped target equals the current stored angle and
also passes SetAngle's range check (it is not below
`centerAngle - leftLimitAngle` nor above `centerAngle + rightLimitAngle` in
uint16 arithmetic), SetAngle returns the nil code and performs no side
effect: state unchanged, no duty write, no angle log, no callback. -/
theorem servoC6_idempotent_noop (h : DefaultHandler) (x : Nat)
    (hEq : remapAngle h x = h.angle)
    (hA : ¬(remapAngle h x < u16sub h.centerAngle h.leftLimitAngle))
    (hB : ¬(u16add h.centerAngle h.rightLimitAngle < remapAngle h x)) :
    h.SetAngle x = { h := h, err := ErrorCode.ErrorCodeNil,
                     dutyWritten := none, angleLogged := none, callbackCalled := none } := by
  have h1 : ¬(remapAngle h x < u16sub h.centerAngle h.leftLimitAngle
      ∨ u16add h.centerAngle h.rightLimitAngle < remapAngle h x) := by omega
  unfold DefaultHandler.SetAngle
  rw [if_neg h1, if_pos hEq]

/-- Witness for the amended C6 at a concrete in-range no-op call. -/
theorem servoC6_idempotent_noop_witness :
    remapAngle hC6w 90 = hC6w.angle ∧
    hC6w.SetAngle 90 = { h := hC6w, err := ErrorCode.ErrorCodeNil,
                         dutyWritten := none, angleLogged := none, callbackCalled := none } :=
  ⟨by decide, servoC6_idempotent_noop hC6w 90 (by decide) (by decide) (by decide)⟩

/-- C7: on a direction-inverted handler, every accepted `SetAngle(x)` stores
the mirrored value `actuationRange - x` (uint16 arithmetic; exact natural
subtraction whenever `x ≤ actuationRange`), and GetAngle returns that
mirrored value. -/
theorem servoC7_inversion_roundtrip (h : DefaultHandler) (x : Nat)
    (hinv : h.isDirectionInverted = true) (haR : h.actuationRange < 65536)
    (herr : (h.SetAngle x).err = ErrorCode.ErrorCodeNil) :
    ((h.SetAngle x).h).GetAngle = u16sub h.actuationRange x ∧
    (x ≤ h.actuationRange → ((h.SetAngle x).h).GetAngle = h.actuationRange - x) := by
  have hr : remapAngle h x = u16sub h.actuationRange x := by simp [remapAngle, hinv]
  have key : ((h.SetAngle x).h).GetAngle = u16sub h.actuationRange x := by
    unfold DefaultHandler.SetAngle at herr ⊢
    by_cases h1 : remapAngle h x < u16sub h.centerAngle h.leftLimitAngle
        ∨ u16add h.centerAngle h.rightLimitAngle < remapAngle h x
    · rw [if_pos h1] at herr
      exact absurd herr (by simp)
    · rw [if_neg h1] at herr ⊢
      by_cases h2 : remapAngle h x = h.angle
      · rw [if_pos h2]
        unfold DefaultHandler.GetAngle
        rw [← h2, hr]
      · rw [if_neg h2]
        unfold DefaultHandler.GetAngle
        exact hr
  exact ⟨key, fun hle => by rw [key, u16sub_of_le h.actuationRange x haR hle]⟩

/-- Witness for C7 at a concrete accepted inverted call: `SetAngle(30)` on
the inverted 0..180 handler stores `180 - 30 = 150`. -/
theorem servoC7_inversion_roundtrip_witness :
    hC7h.isDirectionInverted = true ∧
    (hC7h.SetAngle 30).err = ErrorCode.ErrorCodeNil ∧
    ((hC7h.SetAngle 30).h).GetAngle = u16sub hC7h.actuationRange 30 ∧
    (30 ≤ hC7h.actuationRange → ((hC7h.SetAngle 30).h).GetAngle = hC7h.actuationRange - 30) :=
  ⟨by decide, by decide,
   (servoC7_inversion_roundtrip hC7h 30 (by decide) (by decide) (by decide)).1,
   (servoC7_inversion_roundtrip hC7h 30 (by decide) (by decide) (by decide)).2⟩

/-- C8 counterexample: the claim fails for inverted handlers.  The inverted
handler constructed with `actuationRange=180, centerAngle=60` self-commands
to center during construction, but SetAngle remaps the center to
`180 - 60 = 120` and stores it, so IsAngleCentered is false immediately
after a successful construction. -/
theorem servoC8_counterexample :
    (NewDefaultHandler true (some 0) false true 50 1000 2000 180 60 60 60 true false).err = ErrorCode.ErrorCodeNil ∧
    (NewDefaultHandler true (some 0) false true 50 1000 2000 180 60 60 60 true false).handler = some hC8x ∧
    hC8x.IsAngleCentered = false := by decide

/-- C8 amended: for handlers with direction inversion disabled,
IsAngleCentered is true immediately after every successful construction;
and on every non-inverted handler state whose limits did not wrap
(`leftLimitAngle ≤ centerAngle` and `centerAngle + rightLimitAngle < 2^16`,
as established by any construction with `maxLeftAngle ≤ centerAngle`),
SetAngleToCenter returns the nil code and leaves IsAngleCentered true. -/
theorem servoC8_centering :
    (∀ (pwmOk : Bool) (pc : Option Nat) (cb mv : Bool) (f minP maxP aR cA mL mR : Nat)
      (lg : Bool) (h : DefaultHandler),
      (NewDefaultHandler pwmOk pc cb mv f minP maxP aR cA mL mR false lg).handler = some h →
      h.IsAngleCentered = true)
    ∧ (∀ h : DefaultHandler, h.isDirectionInverted = false →
      h.centerAngle < 65536 → h.leftLimitAngle ≤ h.centerAngle →
      h.centerAngle + h.rightLimitAngle < 65536 →
      (h.SetAngleToCenter).err = ErrorCode.ErrorCodeNil ∧
      ((h.SetAngleToCenter).h).IsAngleCentered = true) := by
  constructor
  · intro pwmOk pc cb mv f minP maxP aR cA mL mR lg h hsome
    obtain ⟨ch, _, _, _, _, _, _, _, _, _, hh, _⟩ :=
      newDefaultHandler_some pwmOk pc cb mv f minP maxP aR cA mL mR false lg h hsome
    subst hh
    have hself := selfCenter_noop (mkCenteredHandler ch cb mv f minP maxP aR cA mL mR false lg)
      rfl rfl
    rw [hself.1]
    unfold DefaultHandler.IsAngleCentered mkCenteredHandler
    exact beq_self_eq_true cA
  · intro h hinv hcA hleft hsum
    have hr : remapAngle h h.centerAngle = h.centerAngle := by simp [remapAngle, hinv]
    have hlt : u16sub h.centerAngle h.leftLimitAngle ≤ h.centerAngle := by
      rw [u16sub_of_le h.centerAngle h.leftLimitAngle hcA hleft]
      omega
    have hgt : h.centerAngle ≤ u16add h.centerAngle h.rightLimitAngle := by
      rw [u16add_of_lt h.centerAngle h.rightLimitAngle hsum]
      omega
    have h1 : ¬(remapAngle h h.centerAngle < u16sub h.centerAngle h.leftLimitAngle
        ∨ u16add h.centerAngle h.rightLimitAngle < remapAngle h h.centerAngle) := by
      rw [hr]
      omega
    unfold DefaultHandler.SetAngleToCenter DefaultHandler.SetAngle
    rw [if_neg h1]
    by_cases h2 : remapAngle h h.centerAngle = h.angle
    · rw [if_pos h2]
      refine ⟨rfl, ?_⟩
      unfold DefaultHandler.IsAngleCentered
      rw [← h2, hr]
      exact beq_self_eq_true h.centerAngle
    · rw [if_neg h2]
      refine ⟨rfl, ?_⟩
      unfold DefaultHandler.IsAngleCentered
      simp only [hr]
      exact beq_self_eq_true h.centerAngle

/-- Witness for the amended C8: a concrete non-inverted construction is
centered, and its SetAngleToCenter succeeds. -/
theorem servoC8_centering_witness :
    hC8w.IsAngleCentered = true ∧ (hC8w.SetAngleToCenter).err = ErrorCode.ErrorCodeNil :=
  ⟨servoC8_centering.1 true (some 0) false true 50 1000 2000 180 90 30 30 false hC8w (by decide),
   (servoC8_centering.2 hC8w rfl (by decide) (by decide) (by decide)).1⟩

/-- C10: for every successful non-inverted construction, the construction
itself produces no duty write, no angle log message and no callback
invocation (the handler starts at `angle = centerAngle`, so the
construction-time self-command to center is a no-op or a silent rejection),
and the resulting handler's stored angle is its center angle. -/
theorem servoC10_construction_no_effects (pwmOk : Bool) (pc : Option Nat) (cb mv : Bool)
    (f minP maxP aR cA mL mR : Nat) (lg : Bool) (h : DefaultHandler)
    (hsome : (NewDefaultHandler pwmOk pc cb mv f minP maxP aR cA mL mR false lg).handler = some h) :
    (NewDefaultHandler pwmOk pc cb mv f minP maxP aR cA mL mR false lg).dutyWritten = none ∧
    (NewDefaultHandler pwmOk pc cb mv f minP maxP aR cA mL mR false lg).angleLogged = none ∧
    (NewDefaultHandler pwmOk pc cb mv f minP maxP aR cA mL mR false lg).callbackCalled = none ∧
    h.angle = h.centerAngle := by
  obtain ⟨ch, _, _, _, _, _, _, _, _, _, hh, hres⟩ :=
    newDefaultHandler_some pwmOk pc cb mv f minP maxP aR cA mL mR false lg h hsome
  have hself := selfCenter_noop (mkCenteredHandler ch cb mv f minP maxP aR cA mL mR false lg)
    rfl rfl
  rw [hres]
  refine ⟨hself.2.1, hself.2.2.1, hself.2.2.2, ?_⟩
  rw [hh, hself.1]
  rfl

/-- Witness for C10 at a concrete non-inverted construction. -/
theorem servoC10_construction_no_effects_witness :
    (NewDefaultHandler true (some 0) false true 50 1000 2000 180 90 30 30 false false).handler = some hC10h ∧
    ((NewDefaultHandler true (some 0) false true 50 1000 2000 180 90 30 30 false false).dutyWritten = none ∧
     (NewDefaultHandler true (some 0) false true 50 1000 2000 180 90 30 30 false false).angleLogged = none ∧
     (NewDefaultHandler true (some 0) false true 50 1000 2000 180 90 30 30 false false).callbackCalled = none ∧
     hC10h.angle = hC10h.centerAngle) :=
  ⟨by decide,
   servoC10_construction_no_effects true (some 0) false true 50 1000 2000 180 90 30 30 false hC10h
     (by decide)⟩
